import Mathlib

/-!
Shallow embedding of the appointment booking backend
(controllers in src/unnamed/part_000, model in src/models/Appointment.js,
mailer in src/utils/sendEmail.js).

External collaborators are modelled as explicit parameters:
the JS Date parser (`new Date(string)`) as a function `String → Option Int`
(`none` is an Invalid Date, whose comparisons are all false),
the Razorpay client as a function from the paise amount to an order or a
thrown error message, the Mongo store as a `List Appointment`, HMAC-SHA256
as an abstract function of the secret and the message, and the mail
transport as an optional thrown error message.
-/

namespace ApDemo

/-- A JS `Date` value: `none` is an Invalid Date (internal value NaN). -/
abbrev JsDate : Type := Option Int

/-- JS `<` on Date values: any comparison against NaN is false. -/
def jsDateLt : JsDate → JsDate → Bool
  | some x, some y => decide (x < y)
  | _, _ => false

/-- Mongo `$gte` on Date values (false when either side is invalid). -/
def jsDateGe : JsDate → JsDate → Bool
  | some x, some y => decide (y ≤ x)
  | _, _ => false

/-- Mongo `$lte` on Date values (false when either side is invalid). -/
def jsDateLe : JsDate → JsDate → Bool
  | some x, some y => decide (x ≤ y)
  | _, _ => false

/-- An appointment document (src/models/Appointment.js).  `id` models the
store-assigned `_id`; enum fields are kept as the strings the code uses. -/
structure Appointment where
  id : Nat
  name : String
  email : String
  phone : String
  testType : String
  appointmentDate : JsDate
  notes : Option String
  status : String
  amount : Nat
  orderId : String
  paymentStatus : String
  paymentId : Option String
  deriving Repr, DecidableEq

/-- An HTTP JSON response: `error status message` is
`res.status(status).json(\x7b message \x7d)`, `ok status body` is
`res.status(status).json(body)`. -/
inductive Resp (α : Type) where
  | error (status : Nat) (message : String)
  | ok (status : Nat) (body : α)
  deriving Repr, DecidableEq

/-! ## Regexes

The two regex literals of `bookAppointment` are embedded as a small regex
AST with a Brzozowski-derivative matcher (exact regular-language
membership, which coincides with JS `RegExp.test` for these anchored,
backreference-free patterns). -/

inductive Regex where
  | fail
  | eps
  | cls (p : Char → Bool)
  | cat (r1 r2 : Regex)
  | alt (r1 r2 : Regex)
  | star (r : Regex)

namespace Regex

/-- Smart concatenation (keeps derivatives small). -/
def mkCat : Regex → Regex → Regex
  | fail, _ => fail
  | eps, r => r
  | r1, r2 => cat r1 r2

/-- Smart alternation (keeps derivatives small). -/
def mkAlt : Regex → Regex → Regex
  | fail, r => r
  | r1, r2 => alt r1 r2

def nullable : Regex → Bool
  | fail => false
  | eps => true
  | cls _ => false
  | cat r1 r2 => nullable r1 && nullable r2
  | alt r1 r2 => nullable r1 || nullable r2
  | star _ => true

def deriv (c : Char) : Regex → Regex
  | fail => fail
  | eps => fail
  | cls p => if p c then eps else fail
  | cat r1 r2 =>
      if nullable r1 then mkAlt (mkCat (deriv c r1) r2) (deriv c r2)
      else mkCat (deriv c r1) r2
  | alt r1 r2 => mkAlt (deriv c r1) (deriv c r2)
  | star r => mkCat (deriv c r) (star r)

def matchList (r : Regex) : List Char → Bool
  | [] => nullable r
  | c :: cs => matchList (deriv c r) cs

/-- Whole-string match of an anchored pattern, as in `regex.test(s)`. -/
def test (r : Regex) (s : String) : Bool := matchList r s.toList

/-- `r+` -/
def plus (r : Regex) : Regex := cat r (star r)

/-- `r?` -/
def opt (r : Regex) : Regex := alt r eps

end Regex

/-- `\w` : `[A-Za-z0-9_]`. -/
def wordChar : Regex := .cls (fun c => c.isAlphanum || c == '_')

/-- `[\.-]` -/
def dotOrDash : Regex := .cls (fun c => c == '.' || c == '-')

/-- `/^\w+([\.-]?\w+)*@\w+([\.-]?\w+)*(\.\w{2,3})+$/` (line 88 of the
controller). -/
def emailRegex : Regex :=
  .cat (.plus wordChar)
    (.cat (.star (.cat (.opt dotOrDash) (.plus wordChar)))
      (.cat (.cls (fun c => c == '@'))
        (.cat (.plus wordChar)
          (.cat (.star (.cat (.opt dotOrDash) (.plus wordChar)))
            (.plus (.cat (.cls (fun c => c == '.'))
              (.cat wordChar (.cat wordChar (.opt wordChar)))))))))

/-- `/^[0-9]{10}$/` (line 94 of the controller). -/
def phoneTest (s : String) : Bool :=
  s.length == 10 && s.toList.all (fun c => '0' ≤ c && c ≤ '9')

/-- The own entries of the `testPrices` object literal of
`bookAppointment` (lines 102-113). -/
def testPrices : String → Option Nat
  | "xray" => some 1000
  | "ctscan" => some 5000
  | "mri" => some 8000
  | "ultrasound" => some 2000
  | "mammogram" => some 3000
  | "dexa" => some 2500
  | "pet" => some 15000
  | "angiography" => some 12000
  | "fluoroscopy" => some 4000
  | "nuclear" => some 10000
  | _ => none

/-- Property names an object literal inherits from `Object.prototype`.
Bracket lookup `testPrices[t]` on these yields a truthy function or
object even though they are not keys of the literal, so the JS check
`!testPrices[t]` does not fire and `amount` is bound to a non-number.
Modelled from JS object semantics (Node / V8). -/
def protoObjectKey : String → Bool
  | "constructor" => true
  | "hasOwnProperty" => true
  | "isPrototypeOf" => true
  | "propertyIsEnumerable" => true
  | "toLocaleString" => true
  | "toString" => true
  | "valueOf" => true
  | "__defineGetter__" => true
  | "__defineSetter__" => true
  | "__lookupGetter__" => true
  | "__lookupSetter__" => true
  | "__proto__" => true
  | _ => false

/-- Modelled from Mongoose: the message of the `CastError` thrown when an
Invalid Date reaches the Date-typed `appointmentDate` path of a query
or a save; the handler's `catch` answers it with status 400. -/
def dateCastMessage : String :=
  "Cast to date failed for value Invalid Date at path appointmentDate"

/-- Modelled from Mongoose: the validation message produced at `save()`
when a non-numeric `amount` (a function inherited from
`Object.prototype`) reaches the Number-typed `amount` path. -/
def amountCastMessage : String :=
  "Appointment validation failed: amount: Cast to Number failed"

/-! ## Booking workflow -/

/-- The body of a booking request.  Absent fields are `none`; the `amount`
field models a client-supplied amount, which the controller never reads. -/
structure BookRequest where
  name : Option String
  email : Option String
  phone : Option String
  testType : Option String
  appointmentDate : Option String
  notes : Option String
  amount : Option Nat
  deriving Repr, DecidableEq

/-- A Razorpay order as returned by `razorpay.orders.create`. -/
structure RpOrder where
  id : String
  amount : Nat
  currency : String
  deriving Repr, DecidableEq

/-- External collaborators of `bookAppointment`: the Date parser and clock,
the gateway (argument is the paise amount; `Except.error m` is a thrown
error), the gateway's outcome when invoked with a NaN paise amount
(`amount * 100` where `amount` is a function inherited from
`Object.prototype`), and the store persist step (`some m` means
`save()` throws `m`). -/
structure BookEnv where
  parseDate : String → Option Int
  now : Int
  createOrder : Nat → Except String RpOrder
  createOrderNaN : Except String RpOrder
  saveFails : Option String

/-- The `201` response body: the saved appointment plus the order summary. -/
structure BookSuccess where
  appointment : Appointment
  orderId : String
  orderAmount : Nat
  orderCurrency : String
  deriving Repr, DecidableEq

/-- JS falsy test on an optional string field (`!req.body[field]`):
absent and empty both read back as `""`. -/
def fieldOf (v : Option String) : String := v.getD ""

/-- The conflict predicate of the `findOne` at line 131: same parsed date,
same test type, status not `cancelled`. -/
def conflictsWith (appointmentDate : JsDate) (testType : String)
    (a : Appointment) : Bool :=
  a.appointmentDate == appointmentDate && a.testType == testType &&
    a.status != "cancelled"

/-- The appointment document built and saved by a successful booking
(controller lines 152-163), given the price-table amount and the
created order. -/
def bookedAppt (env : BookEnv) (req : BookRequest) (store : List Appointment)
    (amt : Nat) (ord : RpOrder) : Appointment :=
  { id := store.length
    name := (fieldOf req.name).trim
    email := (fieldOf req.email).toLower.trim
    phone := (fieldOf req.phone).trim
    testType := fieldOf req.testType
    appointmentDate := env.parseDate (fieldOf req.appointmentDate)
    notes := req.notes.map String.trim
    status := "pending"
    amount := amt
    orderId := ord.id
    paymentStatus := "pending"
    paymentId := none }

/-- The ordered required-field and format checks of `bookAppointment`
(controller lines 74-99): the message of the first failing check,
`none` when all seven pass. -/
def requestError (req : BookRequest) : Option String :=
  if fieldOf req.name == "" then some "name is required"
  else if fieldOf req.email == "" then some "email is required"
  else if fieldOf req.phone == "" then some "phone is required"
  else if fieldOf req.testType == "" then some "testType is required"
  else if fieldOf req.appointmentDate == "" then
    some "appointmentDate is required"
  else if !(emailRegex.test (fieldOf req.email)) then
    some "Please enter a valid email"
  else if !(phoneTest (fieldOf req.phone)) then
    some "Please enter a valid 10-digit phone number"
  else none

/-- `exports.bookAppointment` (controller lines 71-178), returning the
response and the resulting store.  The field and format checks run
first (`requestError`); a thrown gateway or store error is caught by
the handler's `catch`, which answers `400` with the message.  The
test-type check is the JS truthiness of the bracket lookup, which also
accepts `Object.prototype` names (`protoObjectKey`); on that path
`amount` is a non-number, the gateway is invoked with a NaN paise
amount, and a surviving order still fails the Number cast at save.  An
Invalid Date (`none`) passes the `<` check but throws Mongoose's
`CastError` when it reaches the conflict `findOne`. -/
def bookAppointment (env : BookEnv) (req : BookRequest)
    (store : List Appointment) : Resp BookSuccess × List Appointment :=
  match requestError req with
  | some m => (.error 400 m, store)
  | none =>
    let testType := fieldOf req.testType
    if testPrices testType == none && !(protoObjectKey testType) then
      (.error 400 "Invalid test type", store)
    else
      let appointmentDate := env.parseDate (fieldOf req.appointmentDate)
      if jsDateLt appointmentDate (some env.now) then
        (.error 400 "Appointment date cannot be in the past", store)
      else if appointmentDate == (none : JsDate) then
        (.error 400 dateCastMessage, store)
      else if (store.find? (conflictsWith appointmentDate testType)).isSome then
        (.error 400 "This time slot is already booked", store)
      else
        match testPrices testType with
        | none =>
          match env.createOrderNaN with
          | .error m => (.error 400 m, store)
          | .ok _ => (.error 400 amountCastMessage, store)
        | some amount =>
          match env.createOrder (amount * 100) with
          | .error m => (.error 400 m, store)
          | .ok order =>
            match env.saveFails with
            | some m => (.error 400 m, store)
            | none =>
              (.ok 201 ⟨bookedAppt env req store amount order, order.id,
                  order.amount, order.currency⟩,
                store ++ [bookedAppt env req store amount order])

/-! ## Mailer (src/utils/sendEmail.js) -/

/-- `sendEmail` catches any transport error and rethrows
`Failed to send email: <message>` (sendEmail.js lines 44-47).  The
transport outcome is modelled by `transportFails`: `none` means
`sendMail` succeeded, `some m` that it threw `m`. -/
def sendEmailResult (transportFails : Option String) : Except String Unit :=
  match transportFails with
  | none => .ok ()
  | some m => .error ("Failed to send email: " ++ m)

/-! ## Payment confirmation workflow -/

/-- External collaborators of `verifyPayment`: the HMAC-SHA256 hex digest
as an abstract function of the secret and the message, the gateway
secret, and the mail transport outcome. -/
structure VerifyEnv where
  hmac : String → String → String
  secret : String
  transportFails : Option String

/-- The `appointment.save()` of the confirmation path: the found document,
mutated, written back over every stored document with its `_id`. -/
def saveDoc (doc : Appointment) (store : List Appointment) :
    List Appointment :=
  store.map (fun a => if a.id == doc.id then doc else a)

/-- `exports.verifyPayment` (controller lines 181-269), returning the
response and the resulting store.  The signature is checked first; on a
match the appointment found by `orderId` is set to
`confirmed`/`completed` and saved, and only then is the confirmation
email awaited — a thrown mail error reaches the handler's `catch`, which
answers `500` with the message, after the save. -/
def verifyPayment (env : VerifyEnv) (orderId paymentId signature : String)
    (store : List Appointment) : Resp Appointment × List Appointment :=
  let generatedSignature := env.hmac env.secret (orderId ++ "|" ++ paymentId)
  if generatedSignature != signature then
    (.error 400 "Invalid payment signature", store)
  else
    match store.find? (fun a => a.orderId == orderId) with
    | none => (.error 404 "Appointment not found", store)
    | some appointment =>
      let confirmed := { appointment with
        status := "confirmed"
        paymentStatus := "completed"
        paymentId := some paymentId }
      let store1 := saveDoc confirmed store
      match sendEmailResult env.transportFails with
      | .error m => (.error 500 m, store1)
      | .ok _ => (.ok 200 confirmed, store1)

/-! ## Cancellation workflow -/

/-- `exports.cancelAppointment` (controller lines 272-331): find by id,
set status to `cancelled`, save, then await the cancellation email (a
thrown mail error answers `500` after the save, as in `verifyPayment`). -/
def cancelAppointment (transportFails : Option String) (id : Nat)
    (store : List Appointment) : Resp Appointment × List Appointment :=
  match store.find? (fun a => a.id == id) with
  | none => (.error 404 "Appointment not found", store)
  | some appointment =>
    let updated := { appointment with status := "cancelled" }
    let store1 := saveDoc updated store
    match sendEmailResult transportFails with
    | .error m => (.error 500 m, store1)
    | .ok _ => (.ok 200 updated, store1)

/-! ## Listing workflow -/

/-- The query string of a listing request.  `page` and `limit` hold the
`parseInt` result (`none` for NaN); the other entries hold the raw
string when the parameter is present. -/
structure ListQuery where
  page : Option Nat
  limit : Option Nat
  status : Option String
  testType : Option String
  search : Option String
  startDate : Option String
  endDate : Option String
  deriving Repr, DecidableEq

/-- JS truthiness of a query parameter (absent and `""` are falsy). -/
def truthy : Option String → Bool
  | none => false
  | some s => s != ""

/-- `v || d` on a `parseInt` result: NaN and 0 both fall back to `d`. -/
def orDefault (v : Option Nat) (d : Nat) : Nat :=
  match v with
  | none => d
  | some 0 => d
  | some n => n

/-- Whether the first character list starts the second. -/
def startsCL : List Char → List Char → Bool
  | [], _ => true
  | _ :: _, [] => false
  | c :: cs, d :: ds => c == d && startsCL cs ds

/-- Whether the first character list occurs inside the second. -/
def occursCL (needle : List Char) : List Char → Bool
  | [] => startsCL needle []
  | d :: ds => startsCL needle (d :: ds) || occursCL needle ds

/-- Case-insensitive containment, modelling the `$regex`/`$options: "i"`
search on a metacharacter-free search string. -/
def containsCI (hay pat : String) : Bool :=
  occursCL pat.toLower.toList hay.toLower.toList

/-- The Mongo filter object built by `getAppointments` (lines 20-37),
as a predicate on stored documents. -/
def matchesFilter (parseDate : String → Option Int) (q : ListQuery)
    (a : Appointment) : Bool :=
  (if truthy q.status then a.status == fieldOf q.status else true) &&
  (if truthy q.testType then a.testType == fieldOf q.testType else true) &&
  (if truthy q.search then
      containsCI a.name (fieldOf q.search) ||
      containsCI a.email (fieldOf q.search) ||
      containsCI a.phone (fieldOf q.search)
    else true) &&
  (if truthy q.startDate && truthy q.endDate then
      jsDateGe a.appointmentDate (parseDate (fieldOf q.startDate)) &&
      jsDateLe a.appointmentDate (parseDate (fieldOf q.endDate))
    else true)

/-- Insert into a list sorted by ascending appointment date. -/
def insertByDate (a : Appointment) : List Appointment → List Appointment
  | [] => [a]
  | b :: bs =>
      if jsDateLe a.appointmentDate b.appointmentDate then a :: b :: bs
      else b :: insertByDate a bs

/-- The `sort(\x7b appointmentDate: "asc" \x7d)` of the listing query. -/
def sortByDate : List Appointment → List Appointment
  | [] => []
  | a :: as => insertByDate a (sortByDate as)

/-- The `200` body of `getAppointments`. -/
structure ListResponse where
  appointments : List Appointment
  currentPage : Nat
  totalPages : Nat
  totalAppointments : Nat
  deriving Repr, DecidableEq

/-- `exports.getAppointments` (controller lines 13-55).  `totalPages` is
`Math.ceil(total / limit)`, computed on naturals as `(total + limit - 1)
/ limit`. -/
def getAppointments (parseDate : String → Option Int) (q : ListQuery)
    (store : List Appointment) : ListResponse :=
  let page := orDefault q.page 1
  let limit := orDefault q.limit 10
  let skip := (page - 1) * limit
  let matching := store.filter (matchesFilter parseDate q)
  let total := matching.length
  { appointments := ((sortByDate matching).drop skip).take limit
    currentPage := page
    totalPages := (total + limit - 1) / limit
    totalAppointments := total }

/-! ## Concrete fixtures used by counterexamples and witnesses -/

/-- A concrete stand-in for the abstract HMAC-SHA256 hex digest. -/
def hmacModel (secret msg : String) : String := secret ++ "#" ++ msg

/-- Verification environment whose mail transport succeeds. -/
def venvOk : VerifyEnv := ⟨hmacModel, "sec", none⟩

/-- Verification environment whose mail transport throws `smtp down`. -/
def venvBad : VerifyEnv := ⟨hmacModel, "sec", some "smtp down"⟩

/-- A stored appointment that has been cancelled. -/
def apptCancelled : Appointment :=
  { id := 0, name := "Jane", email := "jane@x.com", phone := "1234567890"
    testType := "xray", appointmentDate := some 100, notes := none
    status := "cancelled", amount := 1000, orderId := "ord_1"
    paymentStatus := "pending", paymentId := none }

/-- A stored appointment that is still pending. -/
def apptPending : Appointment := { apptCancelled with status := "pending" }

/-! ## C7: invalid signature short-circuits -/

/-- Claim C7: a payment-confirmation request whose signature differs from
the HMAC-SHA256 hex digest of `orderId + "|" + paymentId` under the
gateway secret answers the invalid-signature error, and the store is
untouched; since the equation holds for every store, no appointment is
even looked up. -/
theorem verifyPayment_invalid_signature (env : VerifyEnv)
    (orderId paymentId signature : String) (store : List Appointment)
    (h : signature ≠ env.hmac env.secret (orderId ++ "|" ++ paymentId)) :
    verifyPayment env orderId paymentId signature store =
      (.error 400 "Invalid payment signature", store) := by
  have hb : (env.hmac env.secret (orderId ++ "|" ++ paymentId) != signature)
      = true := by
    simp [bne_iff_ne]
    exact fun e => h e.symm
  simp [verifyPayment, hb]

/-- Witness for C7 at a concrete mismatched signature. -/
theorem verifyPayment_invalid_signature_witness :
    "forged" ≠ venvOk.hmac venvOk.secret ("ord_1" ++ "|" ++ "pay_1") ∧
      verifyPayment venvOk "ord_1" "pay_1" "forged" [apptPending] =
        (.error 400 "Invalid payment signature", [apptPending]) :=
  ⟨by decide,
    verifyPayment_invalid_signature venvOk "ord_1" "pay_1" "forged"
      [apptPending] (by decide)⟩

/-! ## C1: cancelled is not terminal under payment confirmation -/

/-- Counterexample to claim C1: a valid-signature confirmation for the
order id of a cancelled appointment does transition it: the stored
record comes back with status `confirmed` (the code never inspects the
current status). -/
theorem verifyPayment_cancelled_transitions :
    apptCancelled.status = "cancelled" ∧
      verifyPayment venvOk "ord_1" "pay_1"
          (hmacModel "sec" ("ord_1" ++ "|" ++ "pay_1")) [apptCancelled] =
        (.ok 200 { apptCancelled with
            status := "confirmed"
            paymentStatus := "completed"
            paymentId := some "pay_1" },
          [{ apptCancelled with
            status := "confirmed"
            paymentStatus := "completed"
            paymentId := some "pay_1" }]) := by
  constructor
  · rfl
  · decide

/-- Amended C1: `verifyPayment` with a valid signature confirms the
appointment found by order id whatever its current status; in
particular a cancelled appointment is moved to `confirmed`, so
`cancelled` is not terminal under payment confirmation. -/
theorem verifyPayment_confirms_regardless_of_status (env : VerifyEnv)
    (orderId paymentId signature : String) (store : List Appointment)
    (a : Appointment)
    (hsig : signature = env.hmac env.secret (orderId ++ "|" ++ paymentId))
    (hfind : store.find? (fun x => x.orderId == orderId) = some a)
    (hcanc : a.status = "cancelled")
    (hmail : env.transportFails = none) :
    verifyPayment env orderId paymentId signature store =
      (.ok 200 { a with
          status := "confirmed"
          paymentStatus := "completed"
          paymentId := some paymentId },
        saveDoc { a with
          status := "confirmed"
          paymentStatus := "completed"
          paymentId := some paymentId }
          store) := by
  simp [verifyPayment, hsig, hfind, hmail, sendEmailResult]

/-- Witness for the amended C1 at a concrete cancelled appointment. -/
theorem verifyPayment_confirms_regardless_of_status_witness :
    hmacModel "sec" ("ord_1" ++ "|" ++ "pay_1") =
        venvOk.hmac venvOk.secret ("ord_1" ++ "|" ++ "pay_1") ∧
      List.find? (fun x => x.orderId == "ord_1") [apptCancelled] =
        some apptCancelled ∧
      apptCancelled.status = "cancelled" ∧
      verifyPayment venvOk "ord_1" "pay_1"
          (hmacModel "sec" ("ord_1" ++ "|" ++ "pay_1")) [apptCancelled] =
        (.ok 200 { apptCancelled with
            status := "confirmed"
            paymentStatus := "completed"
            paymentId := some "pay_1" },
          saveDoc { apptCancelled with
            status := "confirmed"
            paymentStatus := "completed"
            paymentId := some "pay_1" }
            [apptCancelled]) :=
  ⟨rfl, by decide, rfl,
    verifyPayment_confirms_regardless_of_status venvOk "ord_1" "pay_1"
      (hmacModel "sec" ("ord_1" ++ "|" ++ "pay_1")) [apptCancelled]
      apptCancelled rfl (by decide) rfl rfl⟩

/-! ## C2: mail failure fails the confirmation response -/

/-- Counterexample to claim C2: with a valid signature and an existing
appointment, a failing mail transport makes `verifyPayment` answer a
`500` error rather than the updated appointment, because the thrown
mail error reaches the handler's `catch`. -/
theorem verifyPayment_mail_failure_is_500 :
    (verifyPayment venvBad "ord_1" "pay_1"
        (hmacModel "sec" ("ord_1" ++ "|" ++ "pay_1")) [apptPending]).1 =
      .error 500 "Failed to send email: smtp down" := by
  decide

/-- Amended C2: when the mail transport fails after the appointment has
been persisted as confirmed, the confirmed state is indeed not rolled
back, but the overall operation does not succeed: it answers a `500`
error carrying the wrapped mail message. -/
theorem verifyPayment_mail_failure_persists_but_errors (env : VerifyEnv)
    (orderId paymentId signature : String) (store : List Appointment)
    (a : Appointment) (m : String)
    (hsig : signature = env.hmac env.secret (orderId ++ "|" ++ paymentId))
    (hfind : store.find? (fun x => x.orderId == orderId) = some a)
    (hmail : env.transportFails = some m) :
    verifyPayment env orderId paymentId signature store =
      (.error 500 ("Failed to send email: " ++ m),
        saveDoc { a with
          status := "confirmed"
          paymentStatus := "completed"
          paymentId := some paymentId }
          store) := by
  simp [verifyPayment, hsig, hfind, hmail, sendEmailResult]

/-- Witness for the amended C2 at a concrete failing transport. -/
theorem verifyPayment_mail_failure_persists_but_errors_witness :
    hmacModel "sec" ("ord_1" ++ "|" ++ "pay_1") =
        venvBad.hmac venvBad.secret ("ord_1" ++ "|" ++ "pay_1") ∧
      List.find? (fun x => x.orderId == "ord_1") [apptPending] =
        some apptPending ∧
      verifyPayment venvBad "ord_1" "pay_1"
          (hmacModel "sec" ("ord_1" ++ "|" ++ "pay_1")) [apptPending] =
        (.error 500 ("Failed to send email: " ++ "smtp down"),
          saveDoc { apptPending with
            status := "confirmed"
            paymentStatus := "completed"
            paymentId := some "pay_1" }
            [apptPending]) :=
  ⟨rfl, by decide,
    verifyPayment_mail_failure_persists_but_errors venvBad "ord_1" "pay_1"
      (hmacModel "sec" ("ord_1" ++ "|" ++ "pay_1")) [apptPending]
      apptPending "smtp down" rfl (by decide) rfl⟩

/-! ## Booking fixtures and helper lemmas -/

/-- The HTTP status of a response. -/
def respStatus {α : Type} : Resp α → Nat
  | .error s _ => s
  | .ok s _ => s

/-- A concrete stand-in for the JS date parser. -/
def pdFix : String → Option Int := fun s =>
  if s == "2030-01-01" then some 100
  else if s == "epoch" then some 0
  else none

/-- A gateway that always creates the order `ord_1`. -/
def gwOk : Nat → Except String RpOrder := fun a => .ok ⟨"ord_1", a, "INR"⟩

/-- Healthy booking environment (clock at 0); a NaN-amount order request
is rejected by the gateway. -/
def envOk : BookEnv := ⟨pdFix, 0, gwOk, .error "amount is not a number", none⟩

/-- Environment whose payment gateway throws `gateway down`. -/
def envGatewayDown : BookEnv :=
  ⟨pdFix, 0, fun _ => .error "gateway down", .error "gateway down", none⟩

/-- Environment whose store `save()` throws `store down`. -/
def envSaveDown : BookEnv :=
  ⟨pdFix, 0, gwOk, .error "amount is not a number", some "store down"⟩

/-- Environment whose gateway rejects a NaN amount with message `nan a`. -/
def envNanA : BookEnv := ⟨pdFix, 0, gwOk, .error "nan a", none⟩

/-- Environment whose gateway rejects a NaN amount with message `nan b`. -/
def envNanB : BookEnv := ⟨pdFix, 0, gwOk, .error "nan b", none⟩

/-- A fully valid booking request for an xray in the future. -/
def reqValid : BookRequest :=
  ⟨some "John", some "User@Example.com", some "1234567890", some "xray",
    some "2030-01-01", none, some 99⟩

theorem jsDateLt_some_true (x : JsDate) (y : Int) :
    jsDateLt x (some y) = true ↔ ∃ d, x = some d ∧ d < y := by
  cases x <;> simp [jsDateLt]

theorem emailTest_ne_empty (s : String) (h : emailRegex.test s = true) :
    (s == "") = false := by
  refine beq_eq_false_iff_ne.mpr (fun e => ?_)
  rw [e] at h
  exact absurd h (by decide)

theorem phoneTest_ne_empty (s : String) (h : phoneTest s = true) :
    (s == "") = false := by
  refine beq_eq_false_iff_ne.mpr (fun e => ?_)
  rw [e] at h
  exact absurd h (by decide)

theorem testPrices_ne_empty (s : String) (amt : Nat)
    (h : testPrices s = some amt) : (s == "") = false := by
  refine beq_eq_false_iff_ne.mpr (fun e => ?_)
  rw [e] at h
  exact absurd h (by simp [testPrices])

/-- Every error response of `bookAppointment` has status 400 and leaves
the store unchanged. -/
theorem bookAppointment_error_shape (env : BookEnv) (req : BookRequest)
    (store : List Appointment) (st : Nat) (msg : String) :
    (bookAppointment env req store).1 = .error st msg →
      st = 400 ∧ (bookAppointment env req store).2 = store := by
  simp only [bookAppointment]
  repeat' split
  all_goals intro h
  any_goals exact Resp.noConfusion h
  all_goals injection h with h1 h2
  all_goals exact ⟨h1.symm, rfl⟩

/-! ## C3: dependency failures during booking answer 400, not 5xx -/

/-- Counterexample to claim C3: on a booking that passes every check, a
thrown gateway error and a thrown store error are both answered with
status 400 (the handler's `catch`), not a 5xx status; no record is
persisted. -/
theorem bookAppointment_dependency_failure_is_400 :
    bookAppointment envGatewayDown reqValid [] =
        (.error 400 "gateway down", []) ∧
      bookAppointment envSaveDown reqValid [] =
        (.error 400 "store down", []) ∧
      respStatus (bookAppointment envGatewayDown reqValid []).1 = 400 := by
  refine ⟨by decide, by decide, by decide⟩

/-- Amended C3: for a booking request that passes all validation and
conflict checks, a gateway or store failure is answered with the thrown
message under status 400 — the same client-error status as validation
failures — and no record is persisted; moreover every error response of
the booking handler has status 400 and leaves the store unchanged. -/
theorem bookAppointment_failure_statuses (env : BookEnv)
    (req : BookRequest) (store : List Appointment) (amt : Nat)
    (hn : (fieldOf req.name == "") = false)
    (hds : (fieldOf req.appointmentDate == "") = false)
    (he : emailRegex.test (fieldOf req.email) = true)
    (hp : phoneTest (fieldOf req.phone) = true)
    (ht : testPrices (fieldOf req.testType) = some amt)
    (hd : jsDateLt (env.parseDate (fieldOf req.appointmentDate))
        (some env.now) = false)
    (hv : (env.parseDate (fieldOf req.appointmentDate) == (none : JsDate))
        = false)
    (hc : store.find? (conflictsWith
        (env.parseDate (fieldOf req.appointmentDate))
        (fieldOf req.testType)) = none) :
    (∀ m, env.createOrder (amt * 100) = .error m →
        bookAppointment env req store = (.error 400 m, store)) ∧
      (∀ ord m, env.createOrder (amt * 100) = .ok ord →
        env.saveFails = some m →
        bookAppointment env req store = (.error 400 m, store)) ∧
      (∀ env2 req2 store2 st msg,
        (bookAppointment env2 req2 store2).1 = .error st msg →
        st = 400 ∧ (bookAppointment env2 req2 store2).2 = store2) := by
  have he0 := emailTest_ne_empty _ he
  have hp0 := phoneTest_ne_empty _ hp
  have ht0 := testPrices_ne_empty _ _ ht
  refine ⟨?_, ?_, fun env2 req2 store2 st msg =>
    bookAppointment_error_shape env2 req2 store2 st msg⟩
  · intro m hm
    simp [bookAppointment, requestError, hn, hds, he, hp, ht, hd, hv, hc, he0, hp0, ht0,
      hm]
  · intro ord m hord hsave
    simp [bookAppointment, requestError, hn, hds, he, hp, ht, hd, hv, hc, he0, hp0, ht0,
      hord, hsave]

/-- Witness for the amended C3 at the concrete failing gateway. -/
theorem bookAppointment_failure_statuses_witness :
    bookAppointment envGatewayDown reqValid [] =
      (.error 400 "gateway down", []) :=
  (bookAppointment_failure_statuses envGatewayDown reqValid [] 1000
    (by decide) (by decide) (by decide) (by decide) (by decide) (by decide)
    (by decide) rfl).1 "gateway down" rfl

/-! ## C4: the date check rejects only strictly-past parsed dates -/

/-- Booking request identical to `reqValid` but dated at the clock's
current instant (`pdFix "epoch" = some 0 = envOk.now`). -/
def reqEpoch : BookRequest := { reqValid with appointmentDate := some "epoch" }

/-- Booking request identical to `reqValid` but with an unparseable date
string (`pdFix "not-a-date" = none`, an Invalid Date). -/
def reqBadDate : BookRequest :=
  { reqValid with appointmentDate := some "not-a-date" }

/-- Counterexample to claim C4: a booking dated exactly at the current
time is accepted (201), because `new Date(x) < now` is false for an
equal date; and a booking with an unparseable date string is rejected
with Mongoose's cast error — a different message — not with the date
validation error: the NaN comparison passes the `<` check and the
Invalid Date then throws a `CastError` at the conflict `findOne`, with
nothing persisted. -/
theorem bookAppointment_date_check_mismatch :
    envOk.parseDate "epoch" = some envOk.now ∧
      (bookAppointment envOk reqEpoch []).1 ≠
        .error 400 "Appointment date cannot be in the past" ∧
      respStatus (bookAppointment envOk reqEpoch []).1 = 201 ∧
      envOk.parseDate "not-a-date" = none ∧
      bookAppointment envOk reqBadDate [] =
        (.error 400 dateCastMessage, []) ∧
      (bookAppointment envOk reqBadDate []).1 ≠
        .error 400 "Appointment date cannot be in the past" := by
  refine ⟨by decide, by decide, by decide, by decide, by decide, by decide⟩

/-- Amended C4: a booking that passes the field, email, phone and
test-type checks (and whose gateway and store would succeed) is
rejected with the date validation error exactly when the supplied date
parses and the parsed instant is strictly earlier than the current
time; a date equal to the current time passes the date check and books
successfully, and an unparseable date string passes the date check but
is then rejected with a 400 Mongoose cast error (a different message),
persisting nothing. -/
theorem bookAppointment_date_rejection_iff (env : BookEnv)
    (req : BookRequest) (store : List Appointment) (amt : Nat)
    (ord : RpOrder)
    (hn : (fieldOf req.name == "") = false)
    (hds : (fieldOf req.appointmentDate == "") = false)
    (he : emailRegex.test (fieldOf req.email) = true)
    (hp : phoneTest (fieldOf req.phone) = true)
    (ht : testPrices (fieldOf req.testType) = some amt)
    (hord : env.createOrder (amt * 100) = .ok ord)
    (hsave : env.saveFails = none) :
    (bookAppointment env req store).1 =
        .error 400 "Appointment date cannot be in the past" ↔
      ∃ d, env.parseDate (fieldOf req.appointmentDate) = some d ∧
        d < env.now := by
  have he0 := emailTest_ne_empty _ he
  have hp0 := phoneTest_ne_empty _ hp
  have ht0 := testPrices_ne_empty _ _ ht
  constructor
  · intro h
    cases hlt : jsDateLt (env.parseDate (fieldOf req.appointmentDate))
        (some env.now) with
    | false =>
      exfalso
      simp [bookAppointment, requestError, hn, hds, he0, hp0, ht0, he, hp, ht, hlt,
        hord, hsave] at h
      repeat' split at h
      all_goals simp_all [dateCastMessage]
    | true => exact (jsDateLt_some_true _ _).mp hlt
  · intro hex
    have hlt : jsDateLt (env.parseDate (fieldOf req.appointmentDate))
        (some env.now) = true := (jsDateLt_some_true _ _).mpr hex
    simp [bookAppointment, requestError, hn, hds, he, hp, ht, he0, hp0, ht0, hlt]

/-- Witness for the amended C4: a request dated strictly in the past is
rejected with the date error. -/
theorem bookAppointment_date_rejection_iff_witness :
    (bookAppointment { envOk with now := 500 } reqValid []).1 =
      .error 400 "Appointment date cannot be in the past" :=
  (bookAppointment_date_rejection_iff { envOk with now := 500 } reqValid []
      1000 ⟨"ord_1", 100000, "INR"⟩ (by decide) (by decide) (by decide)
      (by decide) (by decide) rfl rfl).mpr ⟨100, by decide, by decide⟩

/-! ## C5: the amount always comes from the price table -/

/-- A valid booking request whose test type is the `Object.prototype`
property name `constructor`. -/
def reqConstructor : BookRequest :=
  { reqValid with testType := some "constructor" }

/-- Counterexample to claim C5: `constructor` is not a key of the price
table, yet the booking is not rejected with the invalid-test-type
validation error: the prototype-chain lookup is truthy, the code
proceeds, and the gateway is consulted — two environments differing
only in the gateway's answer to the NaN-amount order produce different
responses, so a side effect was attempted. -/
theorem bookAppointment_proto_key_bypasses_check :
    testPrices "constructor" = none ∧
      (bookAppointment envNanA reqConstructor []).1 = .error 400 "nan a" ∧
      (bookAppointment envNanB reqConstructor []).1 = .error 400 "nan b" ∧
      (bookAppointment envNanA reqConstructor []).1 ≠
        .error 400 "Invalid test type" := by
  refine ⟨by decide, by decide, by decide, by decide⟩

/-- Amended C5: the price table maps xray to 1000 and mri to 8000; every
successful booking returns and stores an appointment whose amount is
the table value for the supplied test type; the client-supplied amount
field is ignored entirely; a test type that is neither a table key nor
an `Object.prototype` property name is rejected with the validation
error and an unchanged store, for every environment (so before any
side effect); but an `Object.prototype` property name passes the
check, the gateway is invoked with the NaN paise amount, and the
operation ends in a 400 gateway or amount-cast error, never a success
and never the invalid-test-type message. -/
theorem bookAppointment_amount_from_price_table :
    (testPrices "xray" = some 1000 ∧ testPrices "mri" = some 8000) ∧
      (∀ (env : BookEnv) (req : BookRequest) (store : List Appointment)
          (b : BookSuccess) (s2 : List Appointment),
        bookAppointment env req store = (.ok 201 b, s2) →
        testPrices (fieldOf req.testType) = some b.appointment.amount ∧
          s2 = store ++ [b.appointment]) ∧
      (∀ (env : BookEnv) (req : BookRequest) (store : List Appointment)
          (v : Option Nat),
        bookAppointment env { req with amount := v } store =
          bookAppointment env req store) ∧
      (∀ (env : BookEnv) (req : BookRequest) (store : List Appointment),
        (fieldOf req.name == "") = false →
        (fieldOf req.appointmentDate == "") = false →
        emailRegex.test (fieldOf req.email) = true →
        phoneTest (fieldOf req.phone) = true →
        (fieldOf req.testType == "") = false →
        testPrices (fieldOf req.testType) = none →
        protoObjectKey (fieldOf req.testType) = false →
        bookAppointment env req store =
          (.error 400 "Invalid test type", store)) ∧
      (∀ (env : BookEnv) (req : BookRequest) (store : List Appointment),
        (fieldOf req.name == "") = false →
        (fieldOf req.appointmentDate == "") = false →
        emailRegex.test (fieldOf req.email) = true →
        phoneTest (fieldOf req.phone) = true →
        testPrices (fieldOf req.testType) = none →
        protoObjectKey (fieldOf req.testType) = true →
        jsDateLt (env.parseDate (fieldOf req.appointmentDate))
          (some env.now) = false →
        (env.parseDate (fieldOf req.appointmentDate) == (none : JsDate))
          = false →
        store.find? (conflictsWith
          (env.parseDate (fieldOf req.appointmentDate))
          (fieldOf req.testType)) = none →
        (∀ m, env.createOrderNaN = .error m →
          bookAppointment env req store = (.error 400 m, store)) ∧
        (∀ ord, env.createOrderNaN = .ok ord →
          bookAppointment env req store =
            (.error 400 amountCastMessage, store))) := by
  refine ⟨⟨rfl, rfl⟩, ?_, ?_, ?_, ?_⟩
  · intro env req store b s2 h
    simp only [bookAppointment] at h
    repeat' split at h
    all_goals injection h with h1 h2
    any_goals exact Resp.noConfusion h1
    all_goals injection h1 with hst hb
    all_goals subst hb
    all_goals subst h2
    all_goals simp_all [bookedAppt]
  · intro env req store v
    rfl
  · intro env req store hn hds he hp ht0 ht hpr
    have he0 := emailTest_ne_empty _ he
    have hp0 := phoneTest_ne_empty _ hp
    simp [bookAppointment, requestError, hn, hds, he0, hp0, ht0, he, hp, ht, hpr]
  · intro env req store hn hds he hp ht hpr hd hv hc
    have he0 := emailTest_ne_empty _ he
    have hp0 := phoneTest_ne_empty _ hp
    have ht0 : (fieldOf req.testType == "") = false := by
      refine beq_eq_false_iff_ne.mpr (fun e => ?_)
      rw [e] at hpr
      exact absurd hpr (by decide)
    constructor
    · intro m hm
      simp [bookAppointment, requestError, hn, hds, he0, hp0, ht0, he, hp, ht, hpr, hd,
        hv, hc, hm]
    · intro ord hord
      simp [bookAppointment, requestError, hn, hds, he0, hp0, ht0, he, hp, ht, hpr, hd,
        hv, hc, hord]

/-- Witness for the amended C5: a request with a test type that is
neither a table key nor a prototype name is rejected with the
validation error. -/
theorem bookAppointment_amount_from_price_table_witness :
    bookAppointment envOk { reqValid with testType := some "bloodtest" }
        [] = (.error 400 "Invalid test type", []) :=
  bookAppointment_amount_from_price_table.2.2.2.1 envOk
    { reqValid with testType := some "bloodtest" } [] (by decide)
    (by decide) (by decide) (by decide) (by decide) (by decide) (by decide)

/-! ## C6: slot exclusivity -/

/-- A booking that passes every check persists exactly `bookedAppt` and
answers 201 with it and the order summary. -/
theorem bookAppointment_success (env : BookEnv) (req : BookRequest)
    (store : List Appointment) (amt : Nat) (ord : RpOrder)
    (hn : (fieldOf req.name == "") = false)
    (hds : (fieldOf req.appointmentDate == "") = false)
    (he : emailRegex.test (fieldOf req.email) = true)
    (hp : phoneTest (fieldOf req.phone) = true)
    (ht : testPrices (fieldOf req.testType) = some amt)
    (hd : jsDateLt (env.parseDate (fieldOf req.appointmentDate))
        (some env.now) = false)
    (hv : (env.parseDate (fieldOf req.appointmentDate) == (none : JsDate))
        = false)
    (hc : store.find? (conflictsWith
        (env.parseDate (fieldOf req.appointmentDate))
        (fieldOf req.testType)) = none)
    (ho : env.createOrder (amt * 100) = .ok ord)
    (hs : env.saveFails = none) :
    bookAppointment env req store =
      (.ok 201 ⟨bookedAppt env req store amt ord, ord.id, ord.amount,
        ord.currency⟩, store ++ [bookedAppt env req store amt ord]) := by
  have he0 := emailTest_ne_empty _ he
  have hp0 := phoneTest_ne_empty _ hp
  have ht0 := testPrices_ne_empty _ _ ht
  simp [bookAppointment, requestError, bookedAppt, hn, hds, he0, hp0, ht0, he, hp, ht,
    hd, hv, hc, ho, hs]

/-- Saving a document whose id is fresh for `s` but carried by `a1`
rewrites exactly the `a1` slot. -/
theorem saveDoc_append_fresh (doc : Appointment) (s : List Appointment)
    (a1 : Appointment) (h : ∀ a ∈ s, a.id ≠ doc.id) (ha : a1.id = doc.id) :
    saveDoc doc (s ++ [a1]) = s ++ [doc] := by
  unfold saveDoc
  rw [List.map_append]
  congr 1
  · induction s with
    | nil => rfl
    | cons x xs ih =>
      have hx : ¬((x.id == doc.id) = true) :=
        fun hb => h x (List.mem_cons_self x xs) (beq_iff_eq.mp hb)
      simp only [List.map_cons]
      rw [if_neg hx]
      exact congrArg (x :: ·) (ih (fun a hy => h a (List.mem_cons_of_mem x hy)))
  · simp [ha]

/-- Claim C6: when a booking succeeds on store `s`, a second booking with
the same parsed date and test type is rejected with the conflict error
and persists nothing; and once the first appointment is cancelled
(whether or not the cancellation email succeeds), the same second
booking goes through.  `hids` states that the ids already in `s` are
distinct from the store-assigned fresh id. -/
theorem bookAppointment_slot_exclusivity (env env2 : BookEnv)
    (cfails : Option String) (req1 req2 : BookRequest)
    (s : List Appointment) (amt : Nat) (ord1 ord2 : RpOrder)
    (h1n : (fieldOf req1.name == "") = false)
    (h1ds : (fieldOf req1.appointmentDate == "") = false)
    (h1e : emailRegex.test (fieldOf req1.email) = true)
    (h1p : phoneTest (fieldOf req1.phone) = true)
    (h1t : testPrices (fieldOf req1.testType) = some amt)
    (h1d : jsDateLt (env.parseDate (fieldOf req1.appointmentDate))
        (some env.now) = false)
    (h1v : (env.parseDate (fieldOf req1.appointmentDate) == (none : JsDate))
        = false)
    (h1c : s.find? (conflictsWith
        (env.parseDate (fieldOf req1.appointmentDate))
        (fieldOf req1.testType)) = none)
    (h1o : env.createOrder (amt * 100) = .ok ord1)
    (h1s : env.saveFails = none)
    (h2n : (fieldOf req2.name == "") = false)
    (h2ds : (fieldOf req2.appointmentDate == "") = false)
    (h2e : emailRegex.test (fieldOf req2.email) = true)
    (h2p : phoneTest (fieldOf req2.phone) = true)
    (h2t : req2.testType = req1.testType)
    (h2d : env2.parseDate (fieldOf req2.appointmentDate) =
        env.parseDate (fieldOf req1.appointmentDate))
    (h2dlt : jsDateLt (env2.parseDate (fieldOf req2.appointmentDate))
        (some env2.now) = false)
    (h2o : env2.createOrder (amt * 100) = .ok ord2)
    (h2s : env2.saveFails = none)
    (hids : ∀ a ∈ s, a.id ≠ s.length) :
    (bookedAppt env req1 s amt ord1).status = "pending" ∧
      bookAppointment env req1 s =
        (.ok 201 ⟨bookedAppt env req1 s amt ord1, ord1.id, ord1.amount,
          ord1.currency⟩, s ++ [bookedAppt env req1 s amt ord1]) ∧
      bookAppointment env2 req2 (s ++ [bookedAppt env req1 s amt ord1]) =
        (.error 400 "This time slot is already booked",
          s ++ [bookedAppt env req1 s amt ord1]) ∧
      ∃ b2 : BookSuccess,
        (bookAppointment env2 req2
          (cancelAppointment cfails (bookedAppt env req1 s amt ord1).id
            (s ++ [bookedAppt env req1 s amt ord1])).2).1 = .ok 201 b2 := by
  set a1 := bookedAppt env req1 s amt ord1 with ha1
  have ht2 : fieldOf req2.testType = fieldOf req1.testType := by rw [h2t]
  have ht2p : testPrices (fieldOf req2.testType) = some amt := by
    rw [ht2]; exact h1t
  have he20 := emailTest_ne_empty _ h2e
  have hp20 := phoneTest_ne_empty _ h2p
  have ht20 := testPrices_ne_empty _ _ ht2p
  have h2v : (env2.parseDate (fieldOf req2.appointmentDate) ==
      (none : JsDate)) = false := by
    rw [h2d]; exact h1v
  refine ⟨rfl, bookAppointment_success env req1 s amt ord1 h1n h1ds h1e h1p
    h1t h1d h1v h1c h1o h1s, ?_, ?_⟩
  · have hfind2 : List.find? (conflictsWith
        (env2.parseDate (fieldOf req2.appointmentDate))
        (fieldOf req2.testType)) (s ++ [a1]) = some a1 := by
      rw [h2d, ht2, List.find?_append, h1c]
      simp [conflictsWith, ha1, bookedAppt]
    simp [bookAppointment, requestError, h2n, h2ds, he20, hp20, ht20, h2e, h2p, ht2p,
      h2dlt, h2v, hfind2]
  · have hfindid : List.find? (fun a => a.id == a1.id) (s ++ [a1]) =
        some a1 := by
      rw [List.find?_append]
      have hnone : List.find? (fun a => a.id == a1.id) s = none :=
        List.find?_eq_none.mpr (fun x hx hb =>
          hids x hx (beq_iff_eq.mp hb))
      rw [hnone]
      simp
    have hcanc2 : (cancelAppointment cfails a1.id (s ++ [a1])).2 =
        s ++ [{ a1 with status := "cancelled" }] := by
      have hsave := saveDoc_append_fresh { a1 with status := "cancelled" }
        s a1 (fun a hx => hids a hx) rfl
      cases cfails <;>
        simp [cancelAppointment, hfindid, sendEmailResult, hsave]
    rw [hcanc2]
    have hnoconf : List.find? (conflictsWith
        (env2.parseDate (fieldOf req2.appointmentDate))
        (fieldOf req2.testType))
        (s ++ [{ a1 with status := "cancelled" }]) = none := by
      rw [h2d, ht2, List.find?_append, h1c]
      simp [conflictsWith]
    have e4 := bookAppointment_success env2 req2
      (s ++ [{ a1 with status := "cancelled" }]) amt ord2 h2n h2ds h2e h2p
      ht2p h2dlt h2v hnoconf h2o h2s
    exact ⟨_, by rw [e4]⟩

/-- A second valid request for the identical slot by another patient. -/
def reqMary : BookRequest :=
  { reqValid with
    name := some "Mary"
    email := some "mary@x.com"
    phone := some "0987654321" }

/-- Witness for C6: the duplicate concrete booking is rejected with the
conflict error and persists nothing. -/
theorem bookAppointment_slot_exclusivity_witness :
    bookAppointment envOk reqMary
        ([] ++ [bookedAppt envOk reqValid [] 1000 ⟨"ord_1", 100000, "INR"⟩]) =
      (.error 400 "This time slot is already booked",
        [] ++ [bookedAppt envOk reqValid [] 1000 ⟨"ord_1", 100000, "INR"⟩]) :=
  (bookAppointment_slot_exclusivity envOk envOk none reqValid reqMary []
    1000 ⟨"ord_1", 100000, "INR"⟩ ⟨"ord_1", 100000, "INR"⟩ (by decide)
    (by decide) (by decide) (by decide) (by decide) (by decide) (by decide)
    rfl rfl rfl (by decide) (by decide) (by decide) (by decide) rfl rfl
    (by decide) rfl rfl (by simp)).2.2.1

/-! ## C8: pagination -/

theorem orDefault_some (v d : Nat) (h : v ≠ 0) : orDefault (some v) d = v := by
  cases v with
  | zero => exact absurd rfl h
  | succ k => rfl

/-- `Math.ceil(t / n)` on naturals, as the code computes it, is the
ceiling of the rational quotient. -/
theorem add_pred_div_eq_ceil (t n : ℕ) (hn : n ≠ 0) :
    (t + n - 1) / n = ⌈(t : ℚ) / (n : ℚ)⌉₊ := by
  have hn0 : 0 < n := Nat.pos_of_ne_zero hn
  have hnq : (0 : ℚ) < (n : ℚ) := by exact_mod_cast hn0
  rcases Nat.eq_zero_or_pos t with ht | ht
  · subst ht
    rw [Nat.zero_add, Nat.div_eq_of_lt (by omega)]
    rw [Nat.cast_zero, zero_div, Nat.ceil_zero]
  · have hk1 : 1 ≤ (t + n - 1) / n := by
      rw [Nat.one_le_div_iff hn0]; omega
    have hkn : (t + n - 1) / n * n ≤ t + n - 1 := Nat.div_mul_le_self _ _
    have hkn2 : t + n - 1 < ((t + n - 1) / n + 1) * n :=
      (Nat.div_lt_iff_lt_mul hn0).mp (Nat.lt_succ_self _)
    have hexp : ((t + n - 1) / n + 1) * n = (t + n - 1) / n * n + n :=
      Nat.succ_mul _ _
    have hsub : ((t + n - 1) / n - 1) * n = (t + n - 1) / n * n - 1 * n :=
      Nat.sub_mul _ _ _
    have h1 : t ≤ (t + n - 1) / n * n := by omega
    have h2 : ((t + n - 1) / n - 1) * n < t := by omega
    refine ((Nat.ceil_eq_iff (by omega)).mpr ⟨?_, ?_⟩).symm
    · rw [lt_div_iff₀ hnq]
      exact_mod_cast h2
    · rw [div_le_iff₀ hnq]
      exact_mod_cast h1

/-- A minimal stored appointment dated at instant `i`. -/
def apptAt (i : Nat) : Appointment :=
  ⟨i, "", "", "", "xray", some (Int.ofNat i), none, "pending", 1000, "",
    "pending", none⟩

/-- Twenty-five stored appointments, all matching the empty filter. -/
def store25 : List Appointment := (List.range 25).map apptAt

/-- The listing query `page=2&limit=10` with no filters. -/
def listQ25 : ListQuery := ⟨some 2, some 10, none, none, none, none, none⟩

/-- Claim C8: a listing with page `p` and limit `n` answers the records
at positions `(p-1)*n .. p*n-1` of the matches sorted by appointment
date ascending, the total match count, and `Math.ceil(total / n)` as
the page count; omitted page and limit default to 1 and 10; and on 25
matching records `page=2, limit=10` returns 10 records, 3 total pages
and 25 total appointments. -/
theorem getAppointments_paginates :
    (∀ (parseDate : String → Option Int) (q : ListQuery)
        (store : List Appointment) (p n : Nat),
      q.page = some p → q.limit = some n → p ≠ 0 → n ≠ 0 →
      getAppointments parseDate q store =
        { appointments := ((sortByDate (store.filter
            (matchesFilter parseDate q))).drop ((p - 1) * n)).take n
          currentPage := p
          totalPages := ⌈((store.filter
            (matchesFilter parseDate q)).length : ℚ) / (n : ℚ)⌉₊
          totalAppointments :=
            (store.filter (matchesFilter parseDate q)).length }) ∧
      (∀ (parseDate : String → Option Int) (q : ListQuery)
          (store : List Appointment),
        q.page = none → q.limit = none →
        getAppointments parseDate q store =
          getAppointments parseDate
            { q with page := some 1, limit := some 10 } store) ∧
      ((getAppointments pdFix listQ25 store25).appointments.length = 10 ∧
        (getAppointments pdFix listQ25 store25).totalPages = 3 ∧
        (getAppointments pdFix listQ25 store25).totalAppointments = 25) := by
  refine ⟨?_, ?_, by decide, by decide, by decide⟩
  · intro parseDate q store p n hp hn hp0 hn0
    simp only [getAppointments, hp, hn, orDefault_some _ _ hp0,
      orDefault_some _ _ hn0]
    rw [add_pred_div_eq_ceil _ _ hn0]
  · intro parseDate q store hp hn
    simp only [getAppointments, hp, hn]
    rfl

/-- Witness for C8 at the concrete 25-record store and `page=2&limit=10`. -/
theorem getAppointments_paginates_witness :
    getAppointments pdFix listQ25 store25 =
      { appointments := ((sortByDate (store25.filter
          (matchesFilter pdFix listQ25))).drop ((2 - 1) * 10)).take 10
        currentPage := 2
        totalPages := ⌈((store25.filter
          (matchesFilter pdFix listQ25)).length : ℚ) / (10 : ℚ)⌉₊
        totalAppointments :=
          (store25.filter (matchesFilter pdFix listQ25)).length } :=
  getAppointments_paginates.1 pdFix listQ25 store25 2 10 rfl rfl
    (by decide) (by decide)

/-! ## C9: a single date bound is ignored -/

/-- Claim C9: when exactly one of `startDate` and `endDate` is supplied,
the appointment-date range filter is not applied at all: the listing
result is identical to the same query with no date bounds. -/
theorem getAppointments_single_bound_ignored
    (parseDate : String → Option Int) (q : ListQuery)
    (store : List Appointment)
    (h : (q.startDate = none ∧ q.endDate ≠ none) ∨
      (q.startDate ≠ none ∧ q.endDate = none)) :
    getAppointments parseDate q store =
      getAppointments parseDate
        { q with startDate := none, endDate := none } store := by
  have hf : matchesFilter parseDate q =
      matchesFilter parseDate { q with startDate := none, endDate := none } := by
    funext a
    rcases h with ⟨h1, _⟩ | ⟨_, h2⟩
    · simp [matchesFilter, h1, truthy]
    · simp [matchesFilter, h2, truthy]
  simp only [getAppointments, hf]

/-- The empty listing query. -/
def listQEmpty : ListQuery := ⟨none, none, none, none, none, none, none⟩

/-- Witness for C9: a query carrying only `startDate`. -/
theorem getAppointments_single_bound_ignored_witness :
    getAppointments pdFix
        { listQEmpty with startDate := some "2030-01-01" } store25 =
      getAppointments pdFix
        { { listQEmpty with startDate := some "2030-01-01" } with
          startDate := none, endDate := none } store25 :=
  getAppointments_single_bound_ignored pdFix
    { listQEmpty with startDate := some "2030-01-01" } store25
    (Or.inr ⟨by decide, rfl⟩)

/-! ## C10: the email pattern caps the final label at 3 characters -/

/-- Claim C10: a booking whose only flaw is an email with a final domain
label longer than 3 characters is rejected with the invalid-email
validation error; the pattern accepts the same address truncated to a
3-character final label. -/
theorem bookAppointment_rejects_long_tld :
    (bookAppointment envOk
        { reqValid with email := some "user@example.museum" } []).1 =
      .error 400 "Please enter a valid email" ∧
      emailRegex.test "user@example.museum" = false ∧
      emailRegex.test "user@example.mus" = true ∧
      emailRegex.test "user@example.co" = true := by
  refine ⟨by decide, by decide, by decide, by decide⟩

end ApDemo
